import Mathlib

/-
  Shallow embedding of the inputKit repository (macOS input injection and
  interception library). The definitions below are translated from the
  Python sources:
    src/keyboard/keymap.py, src/keyboard/key.py, src/keyboard/controller.py,
    src/mouse/button.py, src/mouse/controller.py, src/mouse/listener.py.
  Floating-point coordinates are modelled as rationals; Python dicts are
  modelled as association lists in insertion order (Python dicts preserve
  insertion order, which the value scan in char_to_keycode relies on).
-/

namespace InputKit

set_option maxRecDepth 40000

/-- KEYCODE_CHAR_MAP from src/keyboard/keymap.py, in source insertion order. -/
def KEYCODE_CHAR_MAP : List (Nat × Char) :=
  [ (0, 'a'), (1, 's'), (2, 'd'), (3, 'f'), (4, 'h'), (5, 'g'), (6, 'z'),
    (7, 'x'), (8, 'c'), (9, 'v'), (11, 'b'), (12, 'q'), (13, 'w'), (14, 'e'),
    (15, 'r'), (16, 'y'), (17, 't'), (18, '1'), (19, '2'), (20, '3'),
    (21, '4'), (22, '6'), (23, '5'), (24, '='), (25, '9'), (26, '7'),
    (27, '-'), (28, '8'), (29, '0'), (30, ']'), (31, 'o'), (32, 'u'),
    (33, '['), (34, 'i'), (35, 'p'), (37, 'l'), (38, 'j'), (39, '\''),
    (40, 'k'), (41, ';'), (42, '\\'), (43, ','), (44, '/'), (45, 'n'),
    (46, 'm'), (47, '.'), (49, ' '), (50, '`'), (82, '0'), (83, '1'),
    (84, '2'), (85, '3'), (86, '4'), (87, '5'), (88, '6'), (89, '7'),
    (91, '8'), (92, '9') ]

/-- SHIFTED_CHAR_MAP from src/keyboard/keymap.py: shifted character to the
base character it is produced from. -/
def SHIFTED_CHAR_MAP : List (Char × Char) :=
  [ ('~', '`'), ('!', '1'), ('@', '2'), ('#', '3'), ('$', '4'), ('%', '5'),
    ('^', '6'), ('&', '7'), ('*', '8'), ('(', '9'), (')', '0'), ('_', '-'),
    ('+', '='), ('\x7b', '['), ('\x7d', ']'), ('|', '\\'), (':', ';'),
    ('\"', '\''), ('<', ','), ('>', '.'), ('?', '/') ]

/-- Python dict key lookup on SHIFTED_CHAR_MAP: the combination of
the membership test and the indexing in char_to_keycode. -/
def shiftedLookup (c : Char) : Option Char :=
  (SHIFTED_CHAR_MAP.find? fun p => p.1 == c).map Prod.snd

/-- The value scan over KEYCODE_CHAR_MAP in char_to_keycode: first entry
whose character equals the argument wins, by dict iteration order. -/
def scanKeycode (c : Char) : Option Nat :=
  KEYCODE_CHAR_MAP.findSome? fun p => if p.2 == c then some p.1 else none

/-- Result of a call to char_to_keycode: a (KeyCode, shiftRequired)
pair, the Python None (NotFound), or the RecursionError an unbounded
recursion produces. -/
inductive ResolveOutcome where
  | found (code : Nat) (shift : Bool)
  | notFound
  | recursionError
  deriving DecidableEq

/-- The 471 codepoints that Python classifies as uppercase alphabetic and
whose Python lowercase is the character itself (letterlike symbols such
as U+2102 and the mathematical alphanumeric capitals), per the Unicode
character database used by CPython. On these, char_to_keycode recurses on
the same character forever. -/
def selfLowercasingUppercase : List Nat :=
  [
    0x3D2, 0x3D3, 0x3D4, 0x2102, 0x2107, 0x210B, 0x210C, 0x210D, 0x2110,
    0x2111, 0x2112, 0x2115, 0x2119, 0x211A, 0x211B, 0x211C, 0x211D, 0x2124,
    0x2128, 0x212C, 0x212D, 0x2130, 0x2131, 0x2133, 0x213E, 0x213F, 0x2145,
    0x1D400, 0x1D401, 0x1D402, 0x1D403, 0x1D404, 0x1D405, 0x1D406, 0x1D407,
    0x1D408, 0x1D409, 0x1D40A, 0x1D40B, 0x1D40C, 0x1D40D, 0x1D40E, 0x1D40F,
    0x1D410, 0x1D411, 0x1D412, 0x1D413, 0x1D414, 0x1D415, 0x1D416, 0x1D417,
    0x1D418, 0x1D419, 0x1D434, 0x1D435, 0x1D436, 0x1D437, 0x1D438, 0x1D439,
    0x1D43A, 0x1D43B, 0x1D43C, 0x1D43D, 0x1D43E, 0x1D43F, 0x1D440, 0x1D441,
    0x1D442, 0x1D443, 0x1D444, 0x1D445, 0x1D446, 0x1D447, 0x1D448, 0x1D449,
    0x1D44A, 0x1D44B, 0x1D44C, 0x1D44D, 0x1D468, 0x1D469, 0x1D46A, 0x1D46B,
    0x1D46C, 0x1D46D, 0x1D46E, 0x1D46F, 0x1D470, 0x1D471, 0x1D472, 0x1D473,
    0x1D474, 0x1D475, 0x1D476, 0x1D477, 0x1D478, 0x1D479, 0x1D47A, 0x1D47B,
    0x1D47C, 0x1D47D, 0x1D47E, 0x1D47F, 0x1D480, 0x1D481, 0x1D49C, 0x1D49E,
    0x1D49F, 0x1D4A2, 0x1D4A5, 0x1D4A6, 0x1D4A9, 0x1D4AA, 0x1D4AB, 0x1D4AC,
    0x1D4AE, 0x1D4AF, 0x1D4B0, 0x1D4B1, 0x1D4B2, 0x1D4B3, 0x1D4B4, 0x1D4B5,
    0x1D4D0, 0x1D4D1, 0x1D4D2, 0x1D4D3, 0x1D4D4, 0x1D4D5, 0x1D4D6, 0x1D4D7,
    0x1D4D8, 0x1D4D9, 0x1D4DA, 0x1D4DB, 0x1D4DC, 0x1D4DD, 0x1D4DE, 0x1D4DF,
    0x1D4E0, 0x1D4E1, 0x1D4E2, 0x1D4E3, 0x1D4E4, 0x1D4E5, 0x1D4E6, 0x1D4E7,
    0x1D4E8, 0x1D4E9, 0x1D504, 0x1D505, 0x1D507, 0x1D508, 0x1D509, 0x1D50A,
    0x1D50D, 0x1D50E, 0x1D50F, 0x1D510, 0x1D511, 0x1D512, 0x1D513, 0x1D514,
    0x1D516, 0x1D517, 0x1D518, 0x1D519, 0x1D51A, 0x1D51B, 0x1D51C, 0x1D538,
    0x1D539, 0x1D53B, 0x1D53C, 0x1D53D, 0x1D53E, 0x1D540, 0x1D541, 0x1D542,
    0x1D543, 0x1D544, 0x1D546, 0x1D54A, 0x1D54B, 0x1D54C, 0x1D54D, 0x1D54E,
    0x1D54F, 0x1D550, 0x1D56C, 0x1D56D, 0x1D56E, 0x1D56F, 0x1D570, 0x1D571,
    0x1D572, 0x1D573, 0x1D574, 0x1D575, 0x1D576, 0x1D577, 0x1D578, 0x1D579,
    0x1D57A, 0x1D57B, 0x1D57C, 0x1D57D, 0x1D57E, 0x1D57F, 0x1D580, 0x1D581,
    0x1D582, 0x1D583, 0x1D584, 0x1D585, 0x1D5A0, 0x1D5A1, 0x1D5A2, 0x1D5A3,
    0x1D5A4, 0x1D5A5, 0x1D5A6, 0x1D5A7, 0x1D5A8, 0x1D5A9, 0x1D5AA, 0x1D5AB,
    0x1D5AC, 0x1D5AD, 0x1D5AE, 0x1D5AF, 0x1D5B0, 0x1D5B1, 0x1D5B2, 0x1D5B3,
    0x1D5B4, 0x1D5B5, 0x1D5B6, 0x1D5B7, 0x1D5B8, 0x1D5B9, 0x1D5D4, 0x1D5D5,
    0x1D5D6, 0x1D5D7, 0x1D5D8, 0x1D5D9, 0x1D5DA, 0x1D5DB, 0x1D5DC, 0x1D5DD,
    0x1D5DE, 0x1D5DF, 0x1D5E0, 0x1D5E1, 0x1D5E2, 0x1D5E3, 0x1D5E4, 0x1D5E5,
    0x1D5E6, 0x1D5E7, 0x1D5E8, 0x1D5E9, 0x1D5EA, 0x1D5EB, 0x1D5EC, 0x1D5ED,
    0x1D608, 0x1D609, 0x1D60A, 0x1D60B, 0x1D60C, 0x1D60D, 0x1D60E, 0x1D60F,
    0x1D610, 0x1D611, 0x1D612, 0x1D613, 0x1D614, 0x1D615, 0x1D616, 0x1D617,
    0x1D618, 0x1D619, 0x1D61A, 0x1D61B, 0x1D61C, 0x1D61D, 0x1D61E, 0x1D61F,
    0x1D620, 0x1D621, 0x1D63C, 0x1D63D, 0x1D63E, 0x1D63F, 0x1D640, 0x1D641,
    0x1D642, 0x1D643, 0x1D644, 0x1D645, 0x1D646, 0x1D647, 0x1D648, 0x1D649,
    0x1D64A, 0x1D64B, 0x1D64C, 0x1D64D, 0x1D64E, 0x1D64F, 0x1D650, 0x1D651,
    0x1D652, 0x1D653, 0x1D654, 0x1D655, 0x1D670, 0x1D671, 0x1D672, 0x1D673,
    0x1D674, 0x1D675, 0x1D676, 0x1D677, 0x1D678, 0x1D679, 0x1D67A, 0x1D67B,
    0x1D67C, 0x1D67D, 0x1D67E, 0x1D67F, 0x1D680, 0x1D681, 0x1D682, 0x1D683,
    0x1D684, 0x1D685, 0x1D686, 0x1D687, 0x1D688, 0x1D689, 0x1D6A8, 0x1D6A9,
    0x1D6AA, 0x1D6AB, 0x1D6AC, 0x1D6AD, 0x1D6AE, 0x1D6AF, 0x1D6B0, 0x1D6B1,
    0x1D6B2, 0x1D6B3, 0x1D6B4, 0x1D6B5, 0x1D6B6, 0x1D6B7, 0x1D6B8, 0x1D6B9,
    0x1D6BA, 0x1D6BB, 0x1D6BC, 0x1D6BD, 0x1D6BE, 0x1D6BF, 0x1D6C0, 0x1D6E2,
    0x1D6E3, 0x1D6E4, 0x1D6E5, 0x1D6E6, 0x1D6E7, 0x1D6E8, 0x1D6E9, 0x1D6EA,
    0x1D6EB, 0x1D6EC, 0x1D6ED, 0x1D6EE, 0x1D6EF, 0x1D6F0, 0x1D6F1, 0x1D6F2,
    0x1D6F3, 0x1D6F4, 0x1D6F5, 0x1D6F6, 0x1D6F7, 0x1D6F8, 0x1D6F9, 0x1D6FA,
    0x1D71C, 0x1D71D, 0x1D71E, 0x1D71F, 0x1D720, 0x1D721, 0x1D722, 0x1D723,
    0x1D724, 0x1D725, 0x1D726, 0x1D727, 0x1D728, 0x1D729, 0x1D72A, 0x1D72B,
    0x1D72C, 0x1D72D, 0x1D72E, 0x1D72F, 0x1D730, 0x1D731, 0x1D732, 0x1D733,
    0x1D734, 0x1D756, 0x1D757, 0x1D758, 0x1D759, 0x1D75A, 0x1D75B, 0x1D75C,
    0x1D75D, 0x1D75E, 0x1D75F, 0x1D760, 0x1D761, 0x1D762, 0x1D763, 0x1D764,
    0x1D765, 0x1D766, 0x1D767, 0x1D768, 0x1D769, 0x1D76A, 0x1D76B, 0x1D76C,
    0x1D76D, 0x1D76E, 0x1D790, 0x1D791, 0x1D792, 0x1D793, 0x1D794, 0x1D795,
    0x1D796, 0x1D797, 0x1D798, 0x1D799, 0x1D79A, 0x1D79B, 0x1D79C, 0x1D79D,
    0x1D79E, 0x1D79F, 0x1D7A0, 0x1D7A1, 0x1D7A2, 0x1D7A3, 0x1D7A4, 0x1D7A5,
    0x1D7A6, 0x1D7A7, 0x1D7A8, 0x1D7CA ]

/-- The test char.isalpha() and char.isupper() guarding the uppercase
branch. Python evaluates it with Unicode-aware predicates; this model
returns true exactly where the branch affects the result of
char_to_keycode: on the 26 ASCII uppercase letters and U+212A KELVIN
SIGN, which per the Unicode database are the only characters whose
Python lowercase is a single character with a table entry, and on the
471 self-lowercasing uppercase characters, on which the recursion never
terminates. Python also classifies further characters as uppercase
alphabetic (for example À or Σ), but for every one of those the branch
resolves the lowercase form, finds nothing (that form is neither a
shifted key, nor uppercase, nor a table value, nor, when lowercasing
expands to two characters as for U+0130, equal to any one-character
value), and falls through to the same value scan of the original
character, so the resolver returns the same result as when the branch
is skipped. -/
def pyIsUpperAlpha (c : Char) : Bool :=
  (c.isAlpha && c.isUpper) || c == '\u212A'
    || selfLowercasingUppercase.contains c.toNat

/-- Python str.lower as read by the uppercase branch (char_to_keycode
evaluates it only under pyIsUpperAlpha): ASCII uppercase letters map to
their ASCII lowercase, U+212A KELVIN SIGN maps to k, and the
self-lowercasing uppercase characters map to themselves, which
Char.toLower (the identity outside ASCII) renders exactly. -/
def pyLower (c : Char) : Char :=
  if c == '\u212A' then 'k' else c.toLower

/-- char_to_keycode from src/keyboard/keymap.py over an explicit fuel.
The three steps mirror the source: a key of the shifted-character table
resolves its base character and returns (code, True) on a truthy result;
an uppercase alphabetic character resolves its lowercase form the same
way; otherwise the value scan runs, else None. A raising recursive call
propagates (recursionError); a falsy (None) result falls through to the
next check on the original character. On every character on which the
Python function terminates, the recursion depth is at most one (base
characters and the lowercase forms a to z and k resolve by value scan
alone), so fuel 2 reproduces it exactly; on a self-lowercasing uppercase
character the call recurses on the same character forever, every fuel is
exhausted, and recursionError renders the RecursionError the Python
recursion limit turns this into (char_to_keycode_fuel_self_diverges
proves the fuel-independence). -/
def char_to_keycode_fuel : Nat → Char → ResolveOutcome
  | 0, _ => .recursionError
  | fuel + 1, c =>
    let step3 : ResolveOutcome :=
      match scanKeycode c with
      | some k => .found k false
      | none => .notFound
    let step2 : ResolveOutcome :=
      if pyIsUpperAlpha c then
        match char_to_keycode_fuel fuel (pyLower c) with
        | .found k _ => .found k true
        | .notFound => step3
        | .recursionError => .recursionError
      else step3
    match shiftedLookup c with
    | some base =>
      match char_to_keycode_fuel fuel base with
      | .found k _ => .found k true
      | .notFound => step2
      | .recursionError => .recursionError
    | none => step2

/-- char_to_keycode from src/keyboard/keymap.py (fuel 2 is exact on
every terminating input, and recursionError marks the diverging ones;
see char_to_keycode_fuel). -/
def char_to_keycode (c : Char) : ResolveOutcome :=
  char_to_keycode_fuel 2 c

/-- Assemble the value of a scan step: the first matching KeyCode with
the given shift flag, or NotFound. -/
def foundOf (o : Option Nat) (shift : Bool) : ResolveOutcome :=
  match o with
  | some k => .found k shift
  | none => .notFound

/-- Key enumeration from src/keyboard/key.py (distinct members; aliases
SHIFT, CTRL, OPTION, CMD are resolved at definition time below). -/
inductive Key where
  | SHIFT_L | SHIFT_R | CAPS_LOCK | CTRL_L | CTRL_R
  | OPTION_L | OPTION_R | CMD_L | CMD_R | FN
  | TAB | ESC | DELETE | NUMPAD_DELETE | RETURN | ENTER | SPACE
  | LEFT | RIGHT | UP | DOWN | HOME | END | PAGE_UP | PAGE_DOWN
  | F1 | F2 | F3 | F4 | F5 | F6 | F7 | F8 | F9 | F10 | F11 | F12
  deriving DecidableEq

/-- The keycode value of each Key member, from src/keyboard/key.py. -/
def Key.code : Key → Nat
  | .SHIFT_L => 56 | .SHIFT_R => 60 | .CAPS_LOCK => 57
  | .CTRL_L => 59 | .CTRL_R => 62
  | .OPTION_L => 58 | .OPTION_R => 61
  | .CMD_L => 55 | .CMD_R => 54 | .FN => 63
  | .TAB => 48 | .ESC => 53 | .DELETE => 51 | .NUMPAD_DELETE => 117
  | .RETURN => 36 | .ENTER => 76 | .SPACE => 49
  | .LEFT => 123 | .RIGHT => 124 | .UP => 126 | .DOWN => 125
  | .HOME => 115 | .END => 119 | .PAGE_UP => 116 | .PAGE_DOWN => 121
  | .F1 => 122 | .F2 => 120 | .F3 => 99 | .F4 => 118 | .F5 => 96
  | .F6 => 97 | .F7 => 98 | .F8 => 100 | .F9 => 101 | .F10 => 109
  | .F11 => 103 | .F12 => 111

/-- Alias SHIFT = SHIFT_R from src/keyboard/key.py. -/
def Key.SHIFT : Key := .SHIFT_R

/-- Alias CTRL = CTRL_R from src/keyboard/key.py. -/
def Key.CTRL : Key := .CTRL_R

/-- Alias OPTION = OPTION_R from src/keyboard/key.py. -/
def Key.OPTION : Key := .OPTION_R

/-- Alias CMD = CMD_R from src/keyboard/key.py. -/
def Key.CMD : Key := .CMD_R

/-- The polymorphic key argument of the KeyboardController methods:
a single-character string, a Key member, or anything else (which matches
neither isinstance branch and is ignored by the source). -/
inductive PyKey where
  | char (c : Char)
  | named (k : Key)
  | otherValue
  deriving DecidableEq

/-- One keyboard event posted to the backend: CGEventCreateKeyboardEvent
keycode, down flag, and whether the shift modifier flag was set on it. -/
structure KeyEvent where
  code : Nat
  isDown : Bool
  shiftFlag : Bool
  deriving DecidableEq

/-- Outcome of a KeyboardController call: the backend events posted, in
order, and whether the call raised an exception (the TypeError from
unpacking None when char_to_keycode finds no mapping). -/
structure KbResult where
  posted : List KeyEvent
  raised : Bool
  deriving DecidableEq

namespace KeyboardController

/-- KeyboardController.press from src/keyboard/controller.py. On a string
key the result of char_to_keycode is consumed before any event is
created: a NotFound result raises TypeError at the tuple unpacking, a
diverging resolution propagates RecursionError, both with zero events
posted. -/
def press : PyKey → KbResult
  | .char c =>
    match char_to_keycode c with
    | .notFound => ⟨[], true⟩
    | .recursionError => ⟨[], true⟩
    | .found keycode needsShift => ⟨[⟨keycode, true, needsShift⟩], false⟩
  | .named k => ⟨[⟨k.code, true, false⟩], false⟩
  | .otherValue => ⟨[], false⟩

/-- KeyboardController.release from src/keyboard/controller.py. The shift
component of the resolved pair is bound to an ignored variable, and no
flags are set on the key-up event. -/
def release : PyKey → KbResult
  | .char c =>
    match char_to_keycode c with
    | .notFound => ⟨[], true⟩
    | .recursionError => ⟨[], true⟩
    | .found keycode _ => ⟨[⟨keycode, false, false⟩], false⟩
  | .named k => ⟨[⟨k.code, false, false⟩], false⟩
  | .otherValue => ⟨[], false⟩

/-- KeyboardController.tap from src/keyboard/controller.py: press then
release; an exception in press propagates and skips the release. -/
def tap (k : PyKey) : KbResult :=
  let d := press k
  if d.raised then d
  else
    let u := release k
    ⟨d.posted ++ u.posted, u.raised⟩

/-- KeyboardController.type from src/keyboard/controller.py: tap each
character in order; an exception aborts the remaining iterations. -/
def type : List Char → KbResult
  | [] => ⟨[], false⟩
  | c :: rest =>
    let t := tap (.char c)
    if t.raised then t
    else
      let r := type rest
      ⟨t.posted ++ r.posted, r.raised⟩

end KeyboardController

/-- The 26 uppercase ASCII letters. -/
def upperAsciiChars : List Char := "ABCDEFGHIJKLMNOPQRSTUVWXYZ".toList

/-- The characters on which the uppercase rule produces a result: the
26 ASCII uppercase letters and U+212A KELVIN SIGN. -/
def upperResolvableChars : List Char := upperAsciiChars ++ ['\u212A']

/-- On a character taken by the uppercase branch whose Python lowercase
is the character itself, the recursion consumes every fuel: the Python
call never terminates. -/
theorem char_to_keycode_fuel_self_diverges (c : Char)
    (hs : shiftedLookup c = none) (hu : pyIsUpperAlpha c = true)
    (hl : pyLower c = c) :
    ∀ fuel : Nat, char_to_keycode_fuel fuel c = .recursionError := by
  intro fuel
  induction fuel with
  | zero => rfl
  | succ n ih => simp [char_to_keycode_fuel, hs, hu, hl, ih]

/-- C7 counterexample: the resolver does not implement the terminating
ordered algorithm on every character. U+1D400 MATHEMATICAL BOLD CAPITAL
A is uppercase alphabetic with itself as its lowercase form, so the
recursion calls itself on the same character forever: the call raises
RecursionError (recursionError at fuel 2, and equally at fuel 1000, the
Python recursion limit) instead of returning a pair or NotFound as the
algorithm prescribes. -/
theorem C7_counterexample :
    pyIsUpperAlpha (Char.ofNat 0x1D400) = true
    ∧ pyLower (Char.ofNat 0x1D400) = Char.ofNat 0x1D400
    ∧ char_to_keycode (Char.ofNat 0x1D400) = .recursionError
    ∧ char_to_keycode_fuel 1000 (Char.ofNat 0x1D400) = .recursionError := by
  refine ⟨by decide, by decide, ?_, ?_⟩
  · exact char_to_keycode_fuel_self_diverges _ (by decide) (by decide)
      (by decide) 2
  · exact char_to_keycode_fuel_self_diverges _ (by decide) (by decide)
      (by decide) 1000

/-- C7 amended: the resolver implements the ordered first-match-wins
algorithm with the qualifications the counterexample forces. (1) Every
key of the shifted-character table resolves to the value-scan code of
its base character with shift true, the inner flag overwritten (not
compounding). (2) The uppercase rule produces a result exactly on the
characters whose lowercase form has a table entry — the 26 ASCII
uppercase letters and U+212A KELVIN SIGN — returning the value-scan code
of the lowercase form with shift true. (3) A character that is neither a
shifted key nor taken by the uppercase branch resolves to the first
value-scan match with shift false, (4) and to NotFound when the scan
also fails. (5) A character taken by the uppercase branch that is its
own lowercase form diverges (recursionError) instead of reaching
NotFound. -/
theorem C7_resolver_first_match_amended :
    (∀ p ∈ SHIFTED_CHAR_MAP,
        char_to_keycode p.1 = foundOf (scanKeycode p.2) true
        ∧ (scanKeycode p.2).isSome = true)
    ∧ (∀ c ∈ upperResolvableChars,
        char_to_keycode c = foundOf (scanKeycode (pyLower c)) true
        ∧ (scanKeycode (pyLower c)).isSome = true)
    ∧ (∀ c : Char, shiftedLookup c = none → pyIsUpperAlpha c = false →
        char_to_keycode c = foundOf (scanKeycode c) false)
    ∧ (∀ c : Char, shiftedLookup c = none → pyIsUpperAlpha c = false →
        scanKeycode c = none → char_to_keycode c = .notFound)
    ∧ (∀ c : Char, shiftedLookup c = none → pyIsUpperAlpha c = true →
        pyLower c = c → char_to_keycode c = .recursionError) := by
  refine ⟨by decide, by decide, ?_, ?_, ?_⟩
  · intro c h1 h2
    cases hsc : scanKeycode c <;>
      simp [char_to_keycode, char_to_keycode_fuel, foundOf, h1, h2, hsc]
  · intro c h1 h2 h3
    simp [char_to_keycode, char_to_keycode_fuel, foundOf, h1, h2, h3]
  · intro c h1 h2 h3
    exact char_to_keycode_fuel_self_diverges c h1 h2 h3 2

/-- Witness for C7 amended at concrete inputs: the shifted character
bang resolves to the code of 1 with shift; A and U+212A KELVIN SIGN to
the codes of a and k with shift; the plain character a by value scan
without shift; the tab character to NotFound; and U+1D6A8 MATHEMATICAL
BOLD CAPITAL ALPHA diverges. -/
theorem C7_resolver_first_match_amended_witness :
    char_to_keycode '!' = .found 18 true
    ∧ char_to_keycode 'A' = .found 0 true
    ∧ char_to_keycode '\u212A' = .found 40 true
    ∧ char_to_keycode 'a' = .found 0 false
    ∧ char_to_keycode '\t' = .notFound
    ∧ char_to_keycode (Char.ofNat 0x1D6A8) = .recursionError := by
  refine ⟨?_, ?_, ?_, ?_, ?_, ?_⟩
  · have h := (C7_resolver_first_match_amended.1 ('!', '1') (by decide)).1
    rw [h]
    decide
  · have h := (C7_resolver_first_match_amended.2.1 'A' (by decide)).1
    rw [h]
    decide
  · have h := (C7_resolver_first_match_amended.2.1 '\u212A' (by decide)).1
    rw [h]
    decide
  · have h := C7_resolver_first_match_amended.2.2.1 'a' (by decide)
      (by decide)
    rw [h]
    decide
  · exact C7_resolver_first_match_amended.2.2.2.1 '\t' (by decide)
      (by decide) (by decide)
  · exact C7_resolver_first_match_amended.2.2.2.2 (Char.ofNat 0x1D6A8)
      (by decide) (by decide) (by decide)

/-- C8 counterexample: the unmodified-character table does not have unique
values. Keycodes 18 (number row) and 83 (numeric keypad) are distinct yet
both map to the character 1. -/
theorem C8_counterexample :
    ¬ (∀ p ∈ KEYCODE_CHAR_MAP, ∀ q ∈ KEYCODE_CHAR_MAP,
        p.1 ≠ q.1 → p.2 ≠ q.2) := by
  intro h
  exact h (18, '1') (by decide) (83, '1') (by decide) (by decide) rfl

/-- C8 amended: the only duplicated values in the unmodified-character
table are the digits 0 through 9, which appear once on the number row and
once on the numeric keypad; and because the value scan follows the defined
insertion order, every table entry resolves to its own keycode except the
keypad entries (keycodes 82 and above), so resolve is still deterministic. -/
theorem C8_values_unique_except_digits :
    (∀ p ∈ KEYCODE_CHAR_MAP, ∀ q ∈ KEYCODE_CHAR_MAP,
        p.1 ≠ q.1 → p.2 = q.2 → p.2.isDigit = true)
    ∧ (∀ p ∈ KEYCODE_CHAR_MAP,
        scanKeycode p.2 = some p.1 ∨ (82 ≤ p.1 ∧ p.2.isDigit = true)) := by
  exact ⟨by decide, by decide⟩

/-- Witness for C8 amended: the duplicated character at keycodes 18 and 83
is a digit, and a keypad entry resolves to the number-row keycode. -/
theorem C8_values_unique_except_digits_witness :
    Char.isDigit '1' = true ∧ scanKeycode '1' = some 18 := by
  refine ⟨C8_values_unique_except_digits.1 (18, '1') (by decide) (83, '1')
    (by decide) (by decide) rfl, by decide⟩

/-- C1: on a character absent from all tables the resolver reports
NotFound, and then every KeyboardController operation on that character
posts zero backend events but raises a TypeError (unpacking None), rather
than silently skipping. This contradicts the claim that the operations do
not crash: the code is the bug, since char_to_keycode is annotated to
return None and the callers unpack the result unconditionally. -/
theorem C1_unmapped_char_raises (c : Char)
    (h : char_to_keycode c = .notFound) :
    KeyboardController.press (.char c) = ⟨[], true⟩
    ∧ KeyboardController.release (.char c) = ⟨[], true⟩
    ∧ KeyboardController.tap (.char c) = ⟨[], true⟩
    ∧ KeyboardController.type [c] = ⟨[], true⟩ := by
  refine ⟨?_, ?_, ?_, ?_⟩ <;>
    simp [KeyboardController.press, KeyboardController.release,
      KeyboardController.tap, KeyboardController.type, h]

/-- Witness for C1 at the tab character, which is absent from all tables:
the resolver reports NotFound and press, release, tap and type each raise
with an empty posted-event list. -/
theorem C1_unmapped_char_raises_witness :
    char_to_keycode '\t' = .notFound
    ∧ KeyboardController.press (.char '\t') = ⟨[], true⟩
    ∧ KeyboardController.release (.char '\t') = ⟨[], true⟩
    ∧ KeyboardController.tap (.char '\t') = ⟨[], true⟩
    ∧ KeyboardController.type ['\t'] = ⟨[], true⟩ := by
  have h : char_to_keycode '\t' = .notFound := by decide
  have hc := C1_unmapped_char_raises '\t' h
  exact ⟨h, hc.1, hc.2.1, hc.2.2.1, hc.2.2.2⟩

/-- C10: for every character with a mapping, press posts the key-down at
the resolved keycode with the shift flag exactly as the resolver returned
it, while release discards the shift flag and posts the key-up with no
modifier flags at all, even for shifted characters and uppercase letters. -/
theorem C10_release_drops_shift_flag (c : Char) (k : Nat) (s : Bool)
    (h : char_to_keycode c = .found k s) :
    KeyboardController.press (.char c) = ⟨[⟨k, true, s⟩], false⟩
    ∧ KeyboardController.release (.char c) = ⟨[⟨k, false, false⟩], false⟩ := by
  constructor <;>
    simp [KeyboardController.press, KeyboardController.release, h]

/-- Witness for C10 at the uppercase letter A: press attaches the shift
flag to the down event, release posts the up event without it. -/
theorem C10_release_drops_shift_flag_witness :
    KeyboardController.press (.char 'A') = ⟨[⟨0, true, true⟩], false⟩
    ∧ KeyboardController.release (.char 'A') = ⟨[⟨0, false, false⟩], false⟩ :=
  C10_release_drops_shift_flag 'A' 0 true (by decide)

/-- Button enumeration from src/mouse/button.py. -/
inductive Button where
  | left
  | right
  | middle
  deriving DecidableEq

/-- Mouse event types used by src/mouse/controller.py. -/
inductive MEventType where
  | moved
  | leftDown | leftUp
  | rightDown | rightUp
  | otherDown | otherUp
  | leftDragged | rightDragged | otherDragged
  deriving DecidableEq

/-- One backend call posted by the MouseController: a positioned mouse
event (with the Quartz button number and, for click, the click-state
counter set via CGEventSetIntegerValueField), or a scroll-wheel event,
which carries only the two per-step deltas. -/
inductive MEvent where
  | mouse (t : MEventType) (pos : ℚ × ℚ) (button : Nat)
      (clickState : Option Nat)
  | scrollWheel (dy : ℚ) (dx : ℚ)
  deriving DecidableEq

/-- Backend state threaded through the MouseController operations: the
real cursor position, the list of posted events in order, and how many
times the position property (CGEventCreate + CGEventGetLocation) was
read. Posting a positioned mouse event warps the real cursor to it, which
models the feedback the spec says the controller must be immune to. -/
structure MouseState where
  cursor : ℚ × ℚ
  posted : List MEvent
  reads : Nat
  deriving DecidableEq

/-- The position property getter of MouseController: returns the cursor
location and counts the read. -/
def readPosition (s : MouseState) : (ℚ × ℚ) × MouseState :=
  (s.cursor, { s with reads := s.reads + 1 })

/-- CGEventPost of one event: append it to the trace, and let a
positioned mouse event move the real cursor. -/
def postEvent (s : MouseState) (e : MEvent) : MouseState :=
  match e with
  | .mouse _ pos _ _ => { s with posted := s.posted ++ [e], cursor := pos }
  | .scrollWheel _ _ => { s with posted := s.posted ++ [e] }

/-- Quartz down event type per button, from the click/press dispatch. -/
def downType : Button → MEventType
  | .left => .leftDown
  | .right => .rightDown
  | .middle => .otherDown

/-- Quartz up event type per button. -/
def upType : Button → MEventType
  | .left => .leftUp
  | .right => .rightUp
  | .middle => .otherUp

/-- Quartz dragged event type per button, from the drag dispatch. -/
def dragType : Button → MEventType
  | .left => .leftDragged
  | .right => .rightDragged
  | .middle => .otherDragged

/-- Quartz mouse button number per button (kCGMouseButtonLeft = 0,
kCGMouseButtonRight = 1, middle uses the literal 2 in the source). -/
def btnNum : Button → Nat
  | .left => 0
  | .right => 1
  | .middle => 2

namespace MouseController

/-- MouseController.move from src/mouse/controller.py: read the position
once, then for i in range(1, steps + 1) post a moved event at the original
position plus the fraction i / steps of the delta. List.range yields
0 .. steps - 1, so the source loop index i is modelled as j + 1. -/
def move (dx dy : ℚ) (steps : Nat) (s : MouseState) : MouseState :=
  let (p, s) := readPosition s
  (List.range steps).foldl
    (fun s (j : ℕ) =>
      postEvent s (.mouse .moved
        (p.1 + dx * ((j : ℚ) + 1) / (steps : ℚ),
         p.2 + dy * ((j : ℚ) + 1) / (steps : ℚ)) 0 none))
    s

/-- MouseController.click from src/mouse/controller.py: read the position
once, then for i in range(1, count + 1) post a down and an up event at
that frozen position, each carrying click-state i. -/
def click (b : Button) (count : Nat) (s : MouseState) : MouseState :=
  let (p, s) := readPosition s
  (List.range count).foldl
    (fun s j =>
      let s := postEvent s (.mouse (downType b) p (btnNum b) (some (j + 1)))
      postEvent s (.mouse (upType b) p (btnNum b) (some (j + 1))))
    s

/-- MouseController.press from src/mouse/controller.py: read the position,
post one down event there. -/
def press (b : Button) (s : MouseState) : MouseState :=
  let (p, s) := readPosition s
  postEvent s (.mouse (downType b) p (btnNum b) none)

/-- MouseController.release from src/mouse/controller.py: read the
position, post one up event there. -/
def release (b : Button) (s : MouseState) : MouseState :=
  let (p, s) := readPosition s
  postEvent s (.mouse (upType b) p (btnNum b) none)

/-- MouseController.drag from src/mouse/controller.py: read the position,
call press (which performs its own read), post the interpolated dragged
events computed from the entry read, then call release (its own read
again). -/
def drag (dx dy : ℚ) (b : Button) (steps : Nat) (s : MouseState) :
    MouseState :=
  let (p, s) := readPosition s
  let s := press b s
  let s := (List.range steps).foldl
    (fun s (j : ℕ) =>
      postEvent s (.mouse (dragType b)
        (p.1 + dx * ((j : ℚ) + 1) / (steps : ℚ),
         p.2 + dy * ((j : ℚ) + 1) / (steps : ℚ)) (btnNum b) none))
    s
  release b s

/-- MouseController.scroll from src/mouse/controller.py: divide the deltas
by steps once, then post that many scroll events carrying the per-step
deltas. The position is never read. -/
def scroll (dx dy : ℚ) (steps : Nat) (s : MouseState) : MouseState :=
  let intermediateDx := dx / (steps : ℚ)
  let intermediateDy := dy / (steps : ℚ)
  (List.range steps).foldl
    (fun s _ => postEvent s (.scrollWheel intermediateDy intermediateDx))
    s

end MouseController

/-- Folding a list of positioned mouse posts: the trace grows by the
mapped events, the read counter is untouched, and the cursor ends at the
last posted position (or stays put on the empty list). -/
theorem foldl_postEvent_mouse (t : MEventType) (btn : Nat)
    (f : Nat → ℚ × ℚ) (l : List Nat) (s : MouseState) :
    (l.foldl (fun s j => postEvent s (.mouse t (f j) btn none)) s).posted
        = s.posted ++ l.map (fun j => MEvent.mouse t (f j) btn none)
    ∧ (l.foldl (fun s j => postEvent s (.mouse t (f j) btn none)) s).reads
        = s.reads
    ∧ (l.foldl (fun s j => postEvent s (.mouse t (f j) btn none)) s).cursor
        = l.foldl (fun _ j => f j) s.cursor := by
  induction l generalizing s with
  | nil => simp
  | cons a as ih =>
    simp only [List.foldl_cons, List.map_cons]
    refine ⟨?_, ?_, ?_⟩
    · rw [(ih _).1]
      simp [postEvent]
    · rw [(ih _).2.1]
      simp [postEvent]
    · rw [(ih _).2.2]
      simp [postEvent]

/-- A constant-last fold over range (n + 1) returns the value at n. -/
theorem foldl_const_last (f : Nat → ℚ × ℚ) (c : ℚ × ℚ) (n : Nat) :
    (List.range (n + 1)).foldl (fun _ j => f j) c = f n := by
  rw [List.range_succ, List.foldl_append]
  simp

/-- Folding steps that never touch the read counter leaves it unchanged. -/
theorem foldl_reads_invariant (F : MouseState → Nat → MouseState)
    (hF : ∀ s j, (F s j).reads = s.reads) (l : List Nat) (s : MouseState) :
    (l.foldl F s).reads = s.reads := by
  induction l generalizing s with
  | nil => rfl
  | cons a as ih => rw [List.foldl_cons, ih, hF]

/-- Unfolding MouseController.move: one position read, then the loop over
the interpolated positions computed from the entry read. -/
theorem move_unfold (dx dy : ℚ) (steps : Nat) (s : MouseState) :
    MouseController.move dx dy steps s
      = (List.range steps).foldl
          (fun st (j : ℕ) => postEvent st (.mouse .moved
              (s.cursor.1 + dx * ((j : ℚ) + 1) / (steps : ℚ),
               s.cursor.2 + dy * ((j : ℚ) + 1) / (steps : ℚ)) 0 none))
          { s with reads := s.reads + 1 } := rfl

/-- Unfolding MouseController.click: one position read, then the loop of
down and up pairs at the frozen entry position. -/
theorem click_unfold (b : Button) (count : Nat) (s : MouseState) :
    MouseController.click b count s
      = (List.range count).foldl
          (fun st j =>
            postEvent
              (postEvent st
                (.mouse (downType b) s.cursor (btnNum b) (some (j + 1))))
              (.mouse (upType b) s.cursor (btnNum b) (some (j + 1))))
          { s with reads := s.reads + 1 } := rfl

/-- Evaluating MouseController.press on an arbitrary state. -/
theorem press_spec (b : Button) (s : MouseState) :
    MouseController.press b s
      = ⟨s.cursor,
         s.posted ++ [.mouse (downType b) s.cursor (btnNum b) none],
         s.reads + 1⟩ := rfl

/-- Evaluating MouseController.release on an arbitrary state. -/
theorem release_spec (b : Button) (s : MouseState) :
    MouseController.release b s
      = ⟨s.cursor,
         s.posted ++ [.mouse (upType b) s.cursor (btnNum b) none],
         s.reads + 1⟩ := rfl

/-- Unfolding MouseController.drag: entry read, press (with its own
read), the dragged-event loop computed from the entry read, then release
(its own read again). -/
theorem drag_unfold (dx dy : ℚ) (b : Button) (steps : Nat)
    (s : MouseState) :
    MouseController.drag dx dy b steps s
      = MouseController.release b
          ((List.range steps).foldl
            (fun st (j : ℕ) => postEvent st (.mouse (dragType b)
                (s.cursor.1 + dx * ((j : ℚ) + 1) / (steps : ℚ),
                 s.cursor.2 + dy * ((j : ℚ) + 1) / (steps : ℚ))
                (btnNum b) none))
            (MouseController.press b { s with reads := s.reads + 1 })) := rfl

/-- C9: move(dx, dy, steps = N) with N at least 1 posts exactly N moved
events; the i-th (1-based, here j + 1 over List.range N) is at the entry
position plus (dx, dy) * i / N, computed from the single entry read and
not cumulatively; the last posted position is the entry position plus
(dx, dy) exactly (rational arithmetic); and exactly one position read is
performed. -/
theorem C9_move_interpolated_steps (s : MouseState) (dx dy : ℚ) (n : Nat)
    (h : 1 ≤ n) :
    (MouseController.move dx dy n s).posted
      = s.posted ++ (List.range n).map (fun (j : ℕ) =>
          MEvent.mouse .moved
            (s.cursor.1 + dx * ((j : ℚ) + 1) / (n : ℚ),
             s.cursor.2 + dy * ((j : ℚ) + 1) / (n : ℚ)) 0 none)
    ∧ (MouseController.move dx dy n s).posted.length = s.posted.length + n
    ∧ (MouseController.move dx dy n s).posted.getLast?
        = some (.mouse .moved (s.cursor.1 + dx, s.cursor.2 + dy) 0 none)
    ∧ (MouseController.move dx dy n s).reads = s.reads + 1 := by
  obtain ⟨m, rfl⟩ : ∃ m, n = m + 1 := ⟨n - 1, by omega⟩
  rw [move_unfold]
  have hfold := foldl_postEvent_mouse .moved 0
    (fun (j : ℕ) => (s.cursor.1 + dx * ((j : ℚ) + 1) / ((m + 1 : ℕ) : ℚ),
               s.cursor.2 + dy * ((j : ℚ) + 1) / ((m + 1 : ℕ) : ℚ)))
    (List.range (m + 1)) { s with reads := s.reads + 1 }
  have hne : ((m : ℚ) + 1) ≠ 0 := by positivity
  have hlast : s.cursor.1 + dx * ((m : ℚ) + 1) / ((m + 1 : ℕ) : ℚ) = s.cursor.1 + dx ∧
      s.cursor.2 + dy * ((m : ℚ) + 1) / ((m + 1 : ℕ) : ℚ) = s.cursor.2 + dy := by
    constructor <;>
      · push_cast
        rw [mul_div_assoc, div_self hne, mul_one]
  refine ⟨hfold.1, ?_, ?_, hfold.2.1⟩
  · rw [hfold.1]
    simp
  · rw [hfold.1, List.range_succ, List.map_append, ← List.append_assoc]
    simp only [List.map_cons, List.map_nil]
    rw [List.getLast?_concat]
    rw [hlast.1, hlast.2]

/-- Witness for C9 at a concrete input: moving by (3, 4) in two steps from
position (100, 200) posts exactly the two interpolated moved events, the
second at (103, 204), with one position read. -/
theorem C9_move_interpolated_steps_witness :
    (MouseController.move 3 4 2 ⟨(100, 200), [], 0⟩).posted
      = [MEvent.mouse .moved (203 / 2, 202) 0 none,
         MEvent.mouse .moved (103, 204) 0 none]
    ∧ (MouseController.move 3 4 2 ⟨(100, 200), [], 0⟩).reads = 1 := by
  have h := C9_move_interpolated_steps ⟨(100, 200), [], 0⟩ 3 4 2 (by norm_num)
  refine ⟨?_, h.2.2.2⟩
  rw [h.1]
  norm_num [List.range_succ]

/-- C4 counterexample: drag does not read the cursor position at most
once. Dragging by (10, 0) with the left button in two steps from a fresh
state performs three position reads: one at entry, one inside press and
one inside release. -/
theorem C4_counterexample :
    ¬ (MouseController.drag 10 0 Button.left 2 ⟨(0, 0), [], 0⟩).reads ≤ 1 := by
  decide

/-- Evaluating a full drag call with at least one step on an arbitrary
state: three position reads; the down event at the entry position, the
dragged path computed from the entry read, and the up event at the entry
position plus (dx, dy) — the cursor location release re-reads after the
posted drag movements warped the cursor. -/
theorem drag_spec (s : MouseState) (dx dy : ℚ) (b : Button) (n : Nat) :
    MouseController.drag dx dy b (n + 1) s
      = ⟨(s.cursor.1 + dx, s.cursor.2 + dy),
         s.posted
           ++ [.mouse (downType b) s.cursor (btnNum b) none]
           ++ (List.range (n + 1)).map (fun (j : ℕ) =>
               MEvent.mouse (dragType b)
                 (s.cursor.1 + dx * ((j : ℚ) + 1) / ((n + 1 : ℕ) : ℚ),
                  s.cursor.2 + dy * ((j : ℚ) + 1) / ((n + 1 : ℕ) : ℚ))
                 (btnNum b) none)
           ++ [.mouse (upType b) (s.cursor.1 + dx, s.cursor.2 + dy)
                 (btnNum b) none],
         s.reads + 3⟩ := by
  have hne : ((n : ℚ) + 1) ≠ 0 := by positivity
  have hlast1 : s.cursor.1 + dx * ((n : ℚ) + 1) / ((n + 1 : ℕ) : ℚ)
      = s.cursor.1 + dx := by
    push_cast
    rw [mul_div_assoc, div_self hne, mul_one]
  have hlast2 : s.cursor.2 + dy * ((n : ℚ) + 1) / ((n + 1 : ℕ) : ℚ)
      = s.cursor.2 + dy := by
    push_cast
    rw [mul_div_assoc, div_self hne, mul_one]
  obtain ⟨h1, h2, h3⟩ := foldl_postEvent_mouse (dragType b) (btnNum b)
    (fun (j : ℕ) => (s.cursor.1 + dx * ((j : ℚ) + 1) / ((n + 1 : ℕ) : ℚ),
                     s.cursor.2 + dy * ((j : ℚ) + 1) / ((n + 1 : ℕ) : ℚ)))
    (List.range (n + 1))
    ⟨s.cursor, s.posted ++ [.mouse (downType b) s.cursor (btnNum b) none],
     s.reads + 1 + 1⟩
  rw [drag_unfold]
  rw [show MouseController.press b { s with reads := s.reads + 1 }
      = (⟨s.cursor,
          s.posted ++ [.mouse (downType b) s.cursor (btnNum b) none],
          s.reads + 1 + 1⟩ : MouseState) from rfl]
  rw [release_spec]
  rw [h1, h2, h3, foldl_const_last]
  simp only [MouseState.mk.injEq]
  refine ⟨?_, ?_, ?_⟩
  · simp only [hlast1, hlast2]
  · simp only [hlast1, hlast2, List.append_assoc]
  · dsimp only

/-- C4 amended: move, click, press and release each read the backend
cursor position exactly once at entry, scroll never reads it, but drag
reads it three times (entry, press, release). The down event drag emits is
at the entry position, the dragged path is computed from the entry read
alone, and the up event is at the position reached by the posted drag
movements, namely entry plus (dx, dy), i.e. release re-reads the cursor
after the feedback from the posted events rather than reusing the entry
read. -/
theorem C4_single_read_amended (s : MouseState) (dx dy : ℚ) (b : Button)
    (n cnt : Nat) :
    (MouseController.move dx dy n s).reads = s.reads + 1
    ∧ (MouseController.click b cnt s).reads = s.reads + 1
    ∧ (MouseController.press b s).reads = s.reads + 1
    ∧ (MouseController.release b s).reads = s.reads + 1
    ∧ (MouseController.scroll dx dy n s).reads = s.reads
    ∧ (MouseController.drag dx dy b (n + 1) s).reads = s.reads + 3
    ∧ (MouseController.drag dx dy b (n + 1) s).posted
        = s.posted
          ++ [MEvent.mouse (downType b) s.cursor (btnNum b) none]
          ++ (List.range (n + 1)).map (fun (j : ℕ) =>
              MEvent.mouse (dragType b)
                (s.cursor.1 + dx * ((j : ℚ) + 1) / ((n + 1 : ℕ) : ℚ),
                 s.cursor.2 + dy * ((j : ℚ) + 1) / ((n + 1 : ℕ) : ℚ))
                (btnNum b) none)
          ++ [MEvent.mouse (upType b) (s.cursor.1 + dx, s.cursor.2 + dy)
                (btnNum b) none] := by
  refine ⟨?_, ?_, ?_, ?_, ?_, ?_, ?_⟩
  · rw [move_unfold]
    exact (foldl_postEvent_mouse .moved 0 _ _ _).2.1
  · rw [click_unfold]
    exact foldl_reads_invariant _ (by intro st j; simp [postEvent]) _ _
  · rw [press_spec]
  · rw [release_spec]
  · exact foldl_reads_invariant _ (by intro st j; simp [postEvent]) _ _
  · rw [drag_spec]
  · rw [drag_spec]

/-- Witness for C4 amended at concrete inputs: a two-step drag from a
fresh state performs three reads, and a two-step scroll performs none. -/
theorem C4_single_read_amended_witness :
    (MouseController.drag 10 0 Button.left 2 ⟨(0, 0), [], 0⟩).reads = 3
    ∧ (MouseController.scroll 10 0 2 ⟨(0, 0), [], 0⟩).reads = 0 :=
  ⟨(C4_single_read_amended ⟨(0, 0), [], 0⟩ 10 0 Button.left 1 1).2.2.2.2.2.1,
   (C4_single_read_amended ⟨(0, 0), [], 0⟩ 10 0 Button.left 2 1).2.2.2.2.1⟩

/-- A Python value as returned by a user handler: a boolean, None, or
anything else. -/
inductive PyValue where
  | bool (b : Bool)
  | pyNone
  | other (tag : String)
  deriving DecidableEq

/-- Semantic outcome of invoking a user handler: a returned value or a
raised exception. -/
inductive HandlerOutcome where
  | ret (v : PyValue)
  | exn (e : String)
  deriving DecidableEq

/-- The argument tuple of one handler invocation, as recorded in the
error context built by _safe_call. -/
inductive HandlerArgs where
  | moveArgs (pos : ℚ × ℚ)
  | clickArgs (pos : ℚ × ℚ) (button : String) (pressed : Bool)
  | scrollArgs (pos : ℚ × ℚ) (dx : Int) (dy : Int)
  deriving DecidableEq

/-- traceback.format_exc() for the caught exception, modelled as a string
determined by the exception. -/
def tracebackOf (e : String) : String := "Traceback: " ++ e

/-- The context_info dictionary _safe_call builds when a handler raises:
handler name, arguments, exception and stack trace. -/
structure ErrorContext where
  handler : String
  args : HandlerArgs
  exception : String
  traceback : String
  deriving DecidableEq

/-- Where the error context went: the registered on_error handler, or the
module logger (logger.error with the formatted context). -/
inductive ErrorReport where
  | viaOnError (ctx : ErrorContext)
  | viaLogger (ctx : ErrorContext)
  deriving DecidableEq

/-- The MouseListener handler set from src/mouse/listener.py: the three
optional event handlers (modelled by their semantic outcome on given
arguments) and whether an on_error handler is registered. -/
structure MouseListener where
  onMove : Option ((ℚ × ℚ) → HandlerOutcome)
  onClick : Option ((ℚ × ℚ) → String → Bool → HandlerOutcome)
  onScroll : Option ((ℚ × ℚ) → Int → Int → HandlerOutcome)
  hasOnError : Bool

/-- MouseListener._safe_call from src/mouse/listener.py: return the
handler result unchanged, or catch the exception, report it via on_error
when registered and via the logger otherwise, and return True so that
propagation continues. -/
def safeCall (hasOnError : Bool) (name : String) (args : HandlerArgs)
    (out : HandlerOutcome) : PyValue × List ErrorReport :=
  match out with
  | .ret v => (v, [])
  | .exn e =>
    let ctx : ErrorContext := ⟨name, args, e, tracebackOf e⟩
    if hasOnError then (.bool true, [.viaOnError ctx])
    else (.bool true, [.viaLogger ctx])

/-- The Quartz event types the listener distinguishes; otherEvent stands
for every type outside the tapped mask (for example tap-disabled
notifications), which falls through every branch of the callback. -/
inductive CGEventType where
  | mouseMoved
  | leftMouseDown | leftMouseUp
  | rightMouseDown | rightMouseUp
  | otherMouseDown | otherMouseUp
  | scrollWheel
  | otherEvent
  deriving DecidableEq

/-- An intercepted Quartz event as read by the callback: type, location,
button-number field and the two scroll-delta fields. -/
structure CGEvent where
  type : CGEventType
  loc : ℚ × ℚ
  buttonNumber : Nat
  deltaAxis1 : Int
  deltaAxis2 : Int
  deriving DecidableEq

/-- The button-name decoding in _callback: 0, 1, 2 map to left, right,
middle, and any other number to a synthetic buttonN label. -/
def buttonName (n : Nat) : String :=
  match n with
  | 0 => "left"
  | 1 => "right"
  | 2 => "middle"
  | _ => "button" ++ toString n

/-- The pressed test in _callback: event_type in (LeftMouseDown,
RightMouseDown), exactly as in the source (otherMouseDown is absent from
the tuple there). -/
def pressedOf (t : CGEventType) : Bool :=
  t == .leftMouseDown || t == .rightMouseDown

/-- Result of one callback invocation: the event returned to the backend
(none means suppressed), the error reports emitted, and the names of the
handlers invoked, in order. -/
structure CallbackResult where
  out : Option CGEvent
  reports : List ErrorReport
  calls : List String
  deriving DecidableEq

/-- The common tail of each dispatch branch in _callback: run _safe_call
on the handler outcome and suppress the event exactly when the returned
value is the boolean False. -/
def dispatchStep (hasOnError : Bool) (name : String) (args : HandlerArgs)
    (out : HandlerOutcome) (ev : CGEvent) : CallbackResult :=
  let r := safeCall hasOnError name args out
  if r.1 = .bool false then ⟨none, r.2, [name]⟩
  else ⟨some ev, r.2, [name]⟩

/-- MouseListener._callback from src/mouse/listener.py: classify the
event type; when the matching handler is registered, invoke it through
_safe_call with the decoded arguments and suppress the event on a
returned False; in every other case return the event unchanged. -/
def MouseListener.callback (l : MouseListener) (ev : CGEvent) :
    CallbackResult :=
  match ev.type with
  | .mouseMoved =>
    match l.onMove with
    | some f =>
      dispatchStep l.hasOnError "on_move" (.moveArgs ev.loc) (f ev.loc) ev
    | none => ⟨some ev, [], []⟩
  | .leftMouseDown | .leftMouseUp | .rightMouseDown | .rightMouseUp
  | .otherMouseDown | .otherMouseUp =>
    match l.onClick with
    | some f =>
      dispatchStep l.hasOnError "on_click"
        (.clickArgs ev.loc (buttonName ev.buttonNumber) (pressedOf ev.type))
        (f ev.loc (buttonName ev.buttonNumber) (pressedOf ev.type)) ev
    | none => ⟨some ev, [], []⟩
  | .scrollWheel =>
    match l.onScroll with
    | some f =>
      dispatchStep l.hasOnError "on_scroll"
        (.scrollArgs ev.loc ev.deltaAxis2 ev.deltaAxis1)
        (f ev.loc ev.deltaAxis2 ev.deltaAxis1) ev
    | none => ⟨some ev, [], []⟩
  | .otherEvent => ⟨some ev, [], []⟩

/-- Whether a handler is registered for the given event kind. -/
def handledKind (l : MouseListener) (t : CGEventType) : Bool :=
  match t with
  | .mouseMoved => l.onMove.isSome
  | .scrollWheel => l.onScroll.isSome
  | .otherEvent => false
  | _ => l.onClick.isSome

/-- The name of the handler responsible for the given event kind. -/
def handlerNameOf : CGEventType → String
  | .mouseMoved => "on_move"
  | .scrollWheel => "on_scroll"
  | _ => "on_click"

/-- The decoded arguments the callback passes for the given event. -/
def handlerArgsOf (ev : CGEvent) : HandlerArgs :=
  match ev.type with
  | .mouseMoved => .moveArgs ev.loc
  | .scrollWheel => .scrollArgs ev.loc ev.deltaAxis2 ev.deltaAxis1
  | _ => .clickArgs ev.loc (buttonName ev.buttonNumber) (pressedOf ev.type)

/-- The outcome of the registered handler on the given event, when the
event kind has a registered handler. -/
def handlerOutcomeOf (l : MouseListener) (ev : CGEvent) :
    Option HandlerOutcome :=
  match ev.type with
  | .mouseMoved => l.onMove.map fun f => f ev.loc
  | .scrollWheel => l.onScroll.map fun f => f ev.loc ev.deltaAxis2 ev.deltaAxis1
  | .otherEvent => none
  | _ => l.onClick.map fun f =>
      f ev.loc (buttonName ev.buttonNumber) (pressedOf ev.type)

/-- Mapping the callback over a stream of intercepted events, one
invocation per event. -/
def processEvents (l : MouseListener) (evs : List CGEvent) :
    List CallbackResult :=
  evs.map l.callback

/-- A dispatch step suppresses the event exactly when the handler
returned the boolean False. -/
theorem dispatchStep_out_none_iff (hasOnError : Bool) (name : String)
    (args : HandlerArgs) (o : HandlerOutcome) (ev : CGEvent) :
    (dispatchStep hasOnError name args o ev).out = none
      ↔ o = .ret (.bool false) := by
  cases o with
  | ret v =>
    by_cases hv : v = PyValue.bool false <;>
      simp [dispatchStep, safeCall, hv]
  | exn e =>
    cases hasOnError <;> simp [dispatchStep, safeCall]

/-- A dispatch step either suppresses the event or returns it unchanged. -/
theorem dispatchStep_out_or (hasOnError : Bool) (name : String)
    (args : HandlerArgs) (o : HandlerOutcome) (ev : CGEvent) :
    (dispatchStep hasOnError name args o ev).out = none
      ∨ (dispatchStep hasOnError name args o ev).out = some ev := by
  cases o with
  | ret v =>
    by_cases hv : v = PyValue.bool false <;>
      simp [dispatchStep, safeCall, hv]
  | exn e =>
    cases hasOnError <;> simp [dispatchStep, safeCall]

/-- A dispatch step on a raising handler propagates the event and emits
exactly one report, through on_error when registered, else the logger. -/
theorem dispatchStep_exn (hasOnError : Bool) (name : String)
    (args : HandlerArgs) (e : String) (ev : CGEvent) :
    dispatchStep hasOnError name args (.exn e) ev
      = ⟨some ev,
         [if hasOnError then .viaOnError ⟨name, args, e, tracebackOf e⟩
          else .viaLogger ⟨name, args, e, tracebackOf e⟩],
         [name]⟩ := by
  cases hasOnError <;> simp [dispatchStep, safeCall]

/-- The callback is the dispatch step on the registered handler outcome
when one exists, and the identity pass-through otherwise. -/
theorem callback_eq (l : MouseListener) (ev : CGEvent) :
    l.callback ev =
      match handlerOutcomeOf l ev with
      | some o =>
        dispatchStep l.hasOnError (handlerNameOf ev.type)
          (handlerArgsOf ev) o ev
      | none => ⟨some ev, [], []⟩ := by
  obtain ⟨t, loc, btn, d1, d2⟩ := ev
  cases t <;> cases hm : l.onMove <;> cases hc : l.onClick <;>
    cases hs : l.onScroll <;>
      simp [MouseListener.callback, handlerOutcomeOf, handlerNameOf,
        handlerArgsOf, hm, hc, hs]

/-- A handler outcome exists exactly for handled kinds. -/
theorem handledKind_eq_isSome (l : MouseListener) (ev : CGEvent) :
    handledKind l ev.type = (handlerOutcomeOf l ev).isSome := by
  obtain ⟨t, loc, btn, d1, d2⟩ := ev
  cases t <;> cases hm : l.onMove <;> cases hc : l.onClick <;>
    cases hs : l.onScroll <;>
      simp [handledKind, handlerOutcomeOf, hm, hc, hs]

/-- C5: an intercepted event is suppressed if and only if the registered
handler invocation yields exactly the boolean False; any other outcome,
None and exceptions included, propagates the event unchanged; and for
event kinds without a registered handler, no handler is invoked and the
event propagates unchanged. -/
theorem C5_suppress_iff_handler_returns_false (l : MouseListener)
    (ev : CGEvent) :
    ((l.callback ev).out = none
      ↔ handlerOutcomeOf l ev = some (.ret (.bool false)))
    ∧ ((l.callback ev).out = none ∨ (l.callback ev).out = some ev)
    ∧ (handledKind l ev.type = false →
        l.callback ev = ⟨some ev, [], []⟩) := by
  rw [callback_eq, handledKind_eq_isSome]
  cases ho : handlerOutcomeOf l ev with
  | none => simp
  | some o =>
    refine ⟨?_, ?_, ?_⟩
    · simp [dispatchStep_out_none_iff]
    · exact dispatchStep_out_or _ _ _ _ _
    · simp

/-- A listener whose on_move handler always returns False. -/
def demoSuppressListener : MouseListener :=
  ⟨some fun _ => .ret (.bool false), none, none, false⟩

/-- A listener with no registered handlers at all. -/
def emptyListener : MouseListener := ⟨none, none, none, false⟩

/-- A listener whose on_move handler always raises, with on_error set. -/
def demoRaisingListener : MouseListener :=
  ⟨some fun _ => .exn "boom", none, none, true⟩

/-- A concrete moved event. -/
def demoMovedEvent : CGEvent := ⟨.mouseMoved, (1, 2), 0, 0, 0⟩

/-- Witness for C5: a handler returning False suppresses the concrete
moved event, and a listener with no handlers passes it through with no
handler invocation. -/
theorem C5_suppress_iff_handler_returns_false_witness :
    (demoSuppressListener.callback demoMovedEvent).out = none
    ∧ emptyListener.callback demoMovedEvent
        = ⟨some demoMovedEvent, [], []⟩ :=
  ⟨(C5_suppress_iff_handler_returns_false demoSuppressListener
      demoMovedEvent).1.mpr rfl,
   (C5_suppress_iff_handler_returns_false emptyListener
      demoMovedEvent).2.2 rfl⟩

/-- C6: when the registered handler raises, the exception is caught, one
report is emitted — through on_error when registered, carrying the
structured context of handler name, arguments, exception and stack trace,
and through the logger otherwise — the event is treated as propagate
(returned unchanged, never suppressed), and every event in a stream still
gets its own dispatch. -/
theorem C6_handler_exception_isolated (l : MouseListener) (ev : CGEvent)
    (e : String) (h : handlerOutcomeOf l ev = some (.exn e)) :
    l.callback ev
      = ⟨some ev,
         [if l.hasOnError then
            ErrorReport.viaOnError
              ⟨handlerNameOf ev.type, handlerArgsOf ev, e, tracebackOf e⟩
          else
            ErrorReport.viaLogger
              ⟨handlerNameOf ev.type, handlerArgsOf ev, e, tracebackOf e⟩],
         [handlerNameOf ev.type]⟩
    ∧ ∀ evs : List CGEvent, (processEvents l evs).length = evs.length := by
  constructor
  · rw [callback_eq, h]
    exact dispatchStep_exn _ _ _ _ _
  · intro evs
    exact List.length_map _ _

/-- Witness for C6: the always-raising handler on the concrete moved
event propagates it and reports through on_error with the full context. -/
theorem C6_handler_exception_isolated_witness :
    demoRaisingListener.callback demoMovedEvent
      = ⟨some demoMovedEvent,
         [ErrorReport.viaOnError
            ⟨"on_move", .moveArgs (1, 2), "boom", tracebackOf "boom"⟩],
         ["on_move"]⟩
    ∧ (processEvents demoRaisingListener
        [demoMovedEvent, demoMovedEvent]).length = 2 :=
  ⟨((C6_handler_exception_isolated demoRaisingListener demoMovedEvent
      "boom" rfl).1),
   (C6_handler_exception_isolated demoRaisingListener demoMovedEvent
      "boom" rfl).2 [demoMovedEvent, demoMovedEvent]⟩

/-- Log levels used in src/mouse/listener.py. -/
inductive LogLevel where
  | warning
  | critical
  | exceptionLevel
  deriving DecidableEq

/-- One entry written to the module logger. -/
structure LogEntry where
  level : LogLevel
  msg : String
  deriving DecidableEq

/-- MouseListener._setup from src/mouse/listener.py, parameterised by
whether CGEventTapCreate succeeds: on failure it logs critical and raises
RuntimeError; on success it attaches the run-loop source and enables the
tap. -/
def setup (tapCreateOk : Bool) : Except String Unit × List LogEntry :=
  if tapCreateOk then (.ok (), [])
  else (.error "Failed to create event tap.",
        [⟨.critical, "Failed to create event tap."⟩])

/-- The context-manager entry from src/mouse/listener.py: run _setup,
log and re-raise on failure. -/
def enter (tapCreateOk : Bool) : Except String Unit × List LogEntry :=
  match setup tapCreateOk with
  | (.ok u, log) => (.ok u, log)
  | (.error e, log) =>
      (.error e,
       log ++ [⟨.exceptionLevel, "Failed to initialize MouseListener"⟩])

/-- What a call to start produces: the exception the caller of start
receives (if any), the running flag afterwards, the log entries written,
and whether the background thread reached CFRunLoopRun. -/
structure StartResult where
  callerExn : Option String
  running : Bool
  log : List LogEntry
  loopEntered : Bool
  deriving DecidableEq

/-- MouseListener.start from src/mouse/listener.py: warn and return when
already running; otherwise set the running flag and launch the background
thread body, which tries the context-manager entry then CFRunLoopRun and
catches every exception, logging it. Modelled sequentially: the thread
body runs up to the blocking run loop or to its logged failure; in both
cases start itself raises nothing to its caller. -/
def start (running : Bool) (tapCreateOk : Bool) : StartResult :=
  if running then
    ⟨none, true, [⟨.warning, "MouseListener is already running."⟩], false⟩
  else
    match enter tapCreateOk with
    | (.ok _, log) => ⟨none, true, log, true⟩
    | (.error _, log) =>
        ⟨none, true,
         log ++ [⟨.exceptionLevel, "Error in MouseListener run loop"⟩],
         false⟩

/-- C2 evidence (code bug): when CGEventTapCreate fails during start from
Idle, the RuntimeError raised by _setup is caught inside the background
thread and only logged; start raises nothing to its caller, the running
flag stays True, and the run loop is never entered — the context-manager
entry, by contrast, does re-raise the error. The claim that start
surfaces an unrecoverable error to the caller fails on the code. -/
theorem C2_start_swallows_tap_failure :
    (enter false).1 = .error "Failed to create event tap."
    ∧ start false false
        = ⟨none, true,
           [⟨.critical, "Failed to create event tap."⟩,
            ⟨.exceptionLevel, "Failed to initialize MouseListener"⟩,
            ⟨.exceptionLevel, "Error in MouseListener run loop"⟩],
           false⟩
    ∧ (start false false).callerExn = none
    ∧ (start false false).running = true :=
  ⟨rfl, rfl, rfl, rfl⟩

/-- What a call to stop produces, with run loops identified by the thread
that runs them: whether the not-running warning fired, which run loop
CFRunLoopStop was applied to, whether the background run loop was
signalled, whether the join on the background thread returns (it does
exactly when the background loop was signalled, since the thread is
blocked in CFRunLoopRun), and the running flag afterwards. -/
structure StopResult where
  warnedNotRunning : Bool
  stopSignalledLoop : Option Nat
  bgLoopSignalled : Bool
  joinReturns : Bool
  runningFlag : Bool
  deriving DecidableEq

/-- MouseListener.stop from src/mouse/listener.py: warn and return when
not running; otherwise call CFRunLoopStop(CFRunLoopGetCurrent()) — the
run loop of the CALLING thread, not the background thread that owns the
listener run loop — clear the running flag, and join the background
thread. -/
def stop (running : Bool) (callerTid bgTid : Nat) : StopResult :=
  if running then
    let target := callerTid
    ⟨false, some target, target == bgTid, target == bgTid, false⟩
  else
    ⟨true, none, false, true, false⟩

/-- C3 evidence (code bug): for every Running listener stopped from a
thread other than its own background thread (the only possible case,
since the background thread is blocked inside CFRunLoopRun), stop signals
the calling thread run loop, the background run loop is never signalled,
and the join never returns — stop does not terminate the background
context, contradicting the claim that it signals the background loop,
waits for it to exit and transitions to Idle. -/
theorem C3_stop_signals_callers_loop (callerTid bgTid : Nat)
    (h : callerTid ≠ bgTid) :
    stop true callerTid bgTid
      = ⟨false, some callerTid, false, false, false⟩ := by
  simp [stop, h]

/-- Witness for C3: stopping from the main thread (id 0) a listener whose
background thread has id 1. -/
theorem C3_stop_signals_callers_loop_witness :
    stop true 0 1 = ⟨false, some 0, false, false, false⟩ :=
  C3_stop_signals_callers_loop 0 1 (by decide)

end InputKit
